import Mathlib

/-!
Shallow embedding of the dataset-aware query resolution engine
(`src/backend/services/statsService.js` and the response normalizer
`validateAndFormatResponse` of `src/backend/server.js`).

JavaScript machine numbers are modelled as `ℚ`; `NaN` is modelled by
`Option ℚ` at the points where the source can produce it (`parseFloat`,
`Number(...)` conversion).  Exceptions thrown by the source are modelled
with `Except String`.  Rows are association lists from column names to
scalar values; a missing key reads as `undefined`, as in JavaScript.
-/

deriving instance DecidableEq for Except

namespace StatsSpec

attribute [local semireducible] Rat.mul Rat.add Rat.sub Rat.inv Rat.ofScientific

/-- `Math.min(a, b)` on two numbers (kernel-reducible). -/
def mathMin (a b : ℚ) : ℚ := if a ≤ b then a else b

/-- `Math.max(a, b)` on two numbers (kernel-reducible). -/
def mathMax (a b : ℚ) : ℚ := if b ≤ a then a else b

/-- A JavaScript scalar value as it occurs in dataset rows and filters:
`null`, `undefined`, booleans, (finite) numbers and strings. -/
inductive JsVal where
  | null
  | undefined
  | bool (b : Bool)
  | num (q : ℚ)
  | str (s : String)
deriving DecidableEq, Repr

/-- A dataset row: an insertion-ordered mapping from column names to scalars
(a JavaScript object with scalar-valued properties). -/
abbrev Row := List (String × JsVal)

/-- Reading `item[key]`: the first binding for `key`, or `undefined` when the
object has no such property. -/
def getField (item : Row) (key : String) : JsVal :=
  match item.find? (fun p => p.1 == key) with
  | some p => p.2
  | none => .undefined

/-- `Object.keys(item)`: the row's column names in insertion order. -/
def rowKeys (item : Row) : List String := item.map Prod.fst

/-- ASCII lower-casing of one character, modelling the effect of
`String.prototype.toLowerCase` on the ASCII range (the only range the
claims exercise). -/
def lowerChar (c : Char) : Char :=
  if 'A' ≤ c ∧ c ≤ 'Z' then Char.ofNat (c.toNat + 32) else c

/-- ASCII model of `s.toLowerCase()`. -/
def toLowerStr (s : String) : String := (s.data.map lowerChar).asString

/-- Numeric value of a list of decimal digit characters. -/
def digitsToNat (l : List Char) : Nat :=
  l.foldl (fun a c => a * 10 + (c.toNat - 48)) 0

/-- Model of `parseFloat` on a string: optional sign, then decimal digits
with at most one decimal point, read as the longest valid prefix; `none`
models `NaN`.  (Exponents, `Infinity`, hexadecimal forms and leading
whitespace skipping are outside the model; no claim depends on them.) -/
def parseFloatStr (s : String) : Option ℚ :=
  let cs := s.data
  let sign : ℚ := match cs with | '-' :: _ => -1 | _ => 1
  let cs2 := match cs with | '-' :: r => r | '+' :: r => r | _ => cs
  let intDigits := cs2.takeWhile Char.isDigit
  let rest := cs2.drop intDigits.length
  let fracDigits := match rest with | '.' :: r => r.takeWhile Char.isDigit | _ => []
  if intDigits.isEmpty && fracDigits.isEmpty then none
  else some (sign * ((digitsToNat intDigits : ℚ)
    + (digitsToNat fracDigits : ℚ) / (10 : ℚ) ^ fracDigits.length))

/-- `parseFloat` applied to a scalar, via JavaScript's string conversion:
numbers parse to themselves; `parseFloat(null)`, `parseFloat(undefined)`
and `parseFloat` of booleans are `NaN` (`none`). -/
def jsParseFloat : JsVal → Option ℚ
  | .num q => some q
  | .str s => parseFloatStr s
  | _ => none

/-- Model of the `Number(s)` conversion used by loose equality: whitespace
is trimmed, the empty string is `0`, and otherwise the whole string must be
a signed decimal numeral; `none` models `NaN`. -/
def jsStrToNumber (s : String) : Option ℚ :=
  let ws := fun (c : Char) => c == ' ' || c == '\t' || c == '\n' || c == '\r'
  let cs := ((s.data.dropWhile ws).reverse.dropWhile ws).reverse
  if cs.isEmpty then some 0
  else
    let sign : ℚ := match cs with | '-' :: _ => -1 | _ => 1
    let cs2 := match cs with | '-' :: r => r | '+' :: r => r | _ => cs
    let intDigits := cs2.takeWhile Char.isDigit
    let rest := cs2.drop intDigits.length
    let fracDigits := match rest with | '.' :: r => r.takeWhile Char.isDigit | _ => []
    let consumed := intDigits.length +
      (match rest with | '.' :: _ => 1 + fracDigits.length | _ => 0)
    if (intDigits.isEmpty && fracDigits.isEmpty) || !(consumed == cs2.length) then none
    else some (sign * ((digitsToNat intDigits : ℚ)
      + (digitsToNat fracDigits : ℚ) / (10 : ℚ) ^ fracDigits.length))

/-- `val.replace(/[$,]/g, '')`: strip dollar signs and thousands separators. -/
def stripCurrency (s : String) : String :=
  (s.data.filter (fun c => !(c == '$' || c == ','))).asString

/-- The value-coercion rule of the statistics engine: strings are stripped of
currency formatting and parsed with `parseFloat`; other scalars go through
`parseFloat` directly.  `none` models `NaN` (the value is excluded). -/
def coerceNumeric (val : JsVal) : Option ℚ :=
  match val with
  | .str s => parseFloatStr (stripCurrency s)
  | v => jsParseFloat v

/-- JavaScript truthiness of a scalar. -/
def jsTruthy : JsVal → Bool
  | .null => false
  | .undefined => false
  | .bool b => b
  | .num q => !(q == 0)
  | .str s => !(s == "")

/-- `ToNumber` on non-null, non-undefined primitives, as used by loose
equality. -/
def primToNumber : JsVal → Option ℚ
  | .num q => some q
  | .str s => jsStrToNumber s
  | .bool b => some (if b then 1 else 0)
  | _ => none

/-- JavaScript loose equality `==` on scalar values: `null` and `undefined`
are loosely equal only to each other; two strings compare as strings; any
other pair is compared after `ToNumber` conversion, with `NaN` equal to
nothing. -/
def jsLooseEq (a b : JsVal) : Bool :=
  match a, b with
  | .null, .null => true
  | .null, .undefined => true
  | .undefined, .null => true
  | .undefined, .undefined => true
  | .null, _ => false
  | _, .null => false
  | .undefined, _ => false
  | _, .undefined => false
  | .str x, .str y => x == y
  | x, y =>
    match primToNumber x, primToNumber y with
    | some p, some q => p == q
    | _, _ => false

/-- `String(v)`: the group keys of the grouped statistics path.  Numbers are
rendered exactly for integer values (the only numeric keys the claims use);
non-integer numbers get a placeholder `num/den` rendering. -/
def ratToString (q : ℚ) : String :=
  if q.den = 1 then toString q.num else toString q.num ++ "/" ++ toString q.den

/-- JavaScript string conversion of a scalar, used when a scalar becomes an
object key in the grouped path. -/
def jsToString : JsVal → String
  | .null => "null"
  | .undefined => "undefined"
  | .bool true => "true"
  | .bool false => "false"
  | .str s => s
  | .num q => ratToString q

/-- `name.toLowerCase().replace(/[\s_]/g, '')`: the normalization applied to
both requested and available field names. -/
def isSpaceOrUnderscore (c : Char) : Bool :=
  c == ' ' || c == '\t' || c == '\n' || c == '\r' || c == '_'

/-- Field-name normalization: lower-case, then delete whitespace and
underscores. -/
def normalizeFieldName (name : String) : String :=
  ((toLowerStr name).data.filter (fun c => !isSpaceOrUnderscore c)).asString

/-- `availableFields.find(f => normalizeFieldName(f) === normalizedSearch)`:
resolve a requested field name to the first available column with the same
normalization. -/
def findField (availableFields : List String) (name : String) : Option String :=
  availableFields.find? (fun f => normalizeFieldName f == normalizeFieldName name)

/-- One entry of an operation request's filter list. -/
structure Filter where
  field : String
  operator : String
  value : JsVal
deriving DecidableEq, Repr

/-- `typeof v === 'string' ? v.toLowerCase() : v` -/
def lowerIfString : JsVal → JsVal
  | .str s => .str (toLowerStr s)
  | v => v

/-- Ordering comparisons of the filter evaluator: both sides through
`parseFloat`; any `NaN` operand makes the predicate false. -/
def numericCompare (cmp : ℚ → ℚ → Bool) (a b : JsVal) : Bool :=
  match jsParseFloat a, jsParseFloat b with
  | some x, some y => cmp x y
  | _, _ => false

/-- Evaluation of a single filter against a row, as inside
`computeStatistic`: an unresolvable filter field is a no-op (`true`);
equality operators compare case-insensitively for strings via loose
equality; ordering operators compare numerically; an unrecognized operator
keeps the row. -/
def evalFilter (availableFields : List String) (item : Row) (filter : Filter) : Bool :=
  match findField availableFields filter.field with
  | none => true
  | some actualFilterField =>
    let itemValue := getField item actualFilterField
    let compareValue := lowerIfString filter.value
    let compareItemValue := lowerIfString itemValue
    match filter.operator with
    | "==" => jsLooseEq compareItemValue compareValue
    | "!=" => !jsLooseEq compareItemValue compareValue
    | ">" => numericCompare (fun x y => decide (x > y)) itemValue filter.value
    | "<" => numericCompare (fun x y => decide (x < y)) itemValue filter.value
    | ">=" => numericCompare (fun x y => decide (x ≥ y)) itemValue filter.value
    | "<=" => numericCompare (fun x y => decide (x ≤ y)) itemValue filter.value
    | _ => true

/-- `filteredData.filter(item => filters.every(...))`: conjunctive filter
application. -/
def applyFilters (availableFields : List String) (filters : List Filter)
    (rows : List Row) : List Row :=
  rows.filter (fun item => filters.all (fun f => evalFilter availableFields item f))

/-- `values.sort((a, b) => a - b)`: ascending numeric sort (insertion sort;
only the sorted contents are observable). -/
def insertSorted (x : ℚ) : List ℚ → List ℚ
  | [] => [x]
  | y :: ys => if x ≤ y then x :: y :: ys else y :: insertSorted x ys

/-- Ascending numeric sort of the working array. -/
def sortAsc (values : List ℚ) : List ℚ := values.foldr insertSorted []

/-- `Number(x.toFixed(2))`: rounding to two decimal places.  Ties round
half-up in the rational model; the source's behavior at exact decimal ties
depends on binary floating point and is not relied on by any claim. -/
def round2 (q : ℚ) : ℚ := (round (q * 100) : ℤ) / 100

/-- `Number(x.toFixed(3))`: rounding to three decimal places. -/
def round3 (q : ℚ) : ℚ := (round (q * 1000) : ℤ) / 1000

/-- `Math.min(...values)` for the nonempty arrays the engine passes
(`Math.min()` of an empty array would be `Infinity`, which is unreachable
in `computeStatistic` because empty value sets are rejected earlier). -/
def listMin : List ℚ → ℚ
  | [] => 0
  | x :: xs => xs.foldl mathMin x

/-- `Math.max(...values)` for the nonempty arrays the engine passes. -/
def listMax : List ℚ → ℚ
  | [] => 0
  | x :: xs => xs.foldl mathMax x

/-- `calculateStat(values, operation)` of `statsService.js`: count, mean,
median, sum, min, max; an unrecognized operation throws
`Invalid operation: ...` (modelled as `.error`).  For `mean` on an empty
array the source produces `NaN`; that call is unreachable from
`computeStatistic` (empty value sets are rejected or skipped first). -/
def calculateStat (values : List ℚ) (operation : String) : Except String ℚ :=
  match operation with
  | "count" => .ok (values.length : ℚ)
  | "mean" => .ok (round2 (values.sum / (values.length : ℚ)))
  | "median" =>
    let sorted := sortAsc values
    let mid := sorted.length / 2
    .ok (round2 (if sorted.length % 2 ≠ 0 then sorted.getD mid 0
      else (sorted.getD (mid - 1) 0 + sorted.getD mid 0) / 2))
  | "sum" => .ok (round2 values.sum)
  | "min" => .ok (round2 (listMin values))
  | "max" => .ok (round2 (listMax values))
  | _ => .error ("Invalid operation: " ++ operation)

/-- Computable stand-in for `Math.sqrt` on rationals: exact on perfect
squares (`sqrt(n/d) = sqrt(n*d)/d`), a floor approximation otherwise.  No
claim depends on the value of an inexact square root, and the
zero-variance correlation case (`NaN` in the source) is outside the
claims. -/
def ratSqrt (q : ℚ) : ℚ :=
  if q < 0 then 0 else (Nat.sqrt (q.num.toNat * q.den) : ℚ) / (q.den : ℚ)

/-- `calculateCorrelation(x, y)`: population Pearson correlation; throws
when the arrays differ in length or are empty. -/
def calculateCorrelation (x y : List ℚ) : Except String ℚ :=
  let n := x.length
  if x.length ≠ y.length ∨ n = 0 then
    .error "Arrays must have the same length and not be empty"
  else
    let meanX := x.sum / (n : ℚ)
    let meanY := y.sum / (n : ℚ)
    let covXY := ((x.zip y).map (fun p => (p.1 - meanX) * (p.2 - meanY))).sum / (n : ℚ)
    let varX := (x.map (fun xi => (xi - meanX) ^ 2)).sum / (n : ℚ)
    let varY := (y.map (fun yi => (yi - meanY) ^ 2)).sum / (n : ℚ)
    .ok (covXY / ratSqrt (varX * varY))

/-- An operation request as received by `computeStatistic`. -/
structure OperationRequest where
  operation : String
  field : String
  field2 : Option String := none
  groupBy : Option String := none
  filters : Option (List Filter) := none
deriving DecidableEq, Repr

/-- Truthiness of an optional string argument (`field2`, `groupBy`):
present and nonempty. -/
def optTruthy : Option String → Bool
  | none => false
  | some s => !(s == "")

/-- Field-level stats returned alongside a correlation. -/
structure FieldStats where
  mean : ℚ
  min : ℚ
  max : ℚ
deriving DecidableEq, Repr

/-- The correlation bundle of a successful correlation request. -/
structure CorrelationOutput where
  correlation : ℚ
  field1Stats : FieldStats
  field2Stats : FieldStats
deriving DecidableEq, Repr

/-- The `output` property of a `computeStatistic` result: a message string,
a single number, a group mapping, or a correlation bundle. -/
inductive Output where
  | msg (s : String)
  | num (q : ℚ)
  | groups (m : List (String × ℚ))
  | corr (c : CorrelationOutput)
deriving DecidableEq, Repr

/-- The structured result object of `computeStatistic`.  Optional properties
are `none` exactly when the corresponding return site of the source does
not set them. -/
structure StatResult where
  output : Output
  success : Bool
  operation : Option String := none
  field : Option String := none
  fields : Option (String × String) := none
  groupBy : Option String := none
  processedCount : Option Nat := none
  totalCount : Option Nat := none
deriving DecidableEq, Repr

/-- Group accumulation: `if (!groups[groupValue]) groups[groupValue] = [];`
(object property creation in insertion order). -/
def ensureGroup {α : Type} (groups : List (String × List α)) (key : String) :
    List (String × List α) :=
  if (groups.find? (fun g => g.1 == key)).isSome then groups
  else groups ++ [(key, [])]

/-- `groups[key].push(v)`. -/
def pushGroup {α : Type} (groups : List (String × List α)) (key : String) (v : α) :
    List (String × List α) :=
  groups.map (fun g => if g.1 == key then (g.1, g.2 ++ [v]) else g)

/-- The grouped accumulation loop for `operation === 'count'`: every
filtered row is pushed into its group (keyed by the stringified group
value).  Note: `Object.entries` in the source lists integer-like keys
first; the model keeps pure insertion order, and no claim depends on entry
order. -/
def buildGroupsCount (groupField : String) (rows : List Row) :
    List (String × List Row) :=
  rows.foldl (fun gs item =>
    let key := jsToString (getField item groupField)
    pushGroup (ensureGroup gs key) key item) []

/-- The grouped accumulation loop for non-count operations: the group entry
is created for every filtered row, then the coerced numeric value is pushed
only when it is not `NaN`. -/
def buildGroupsValues (groupField targetField : String) (rows : List Row) :
    List (String × List ℚ) :=
  rows.foldl (fun gs item =>
    let key := jsToString (getField item groupField)
    let gs2 := ensureGroup gs key
    match coerceNumeric (getField item targetField) with
    | some v => pushGroup gs2 key v
    | none => gs2) []

/-- The filtered row set of a request: filters are applied only when the
request carries a filter array. -/
def filteredRowsOf (req : OperationRequest) (dataset : List Row)
    (availableFields : List String) : List Row :=
  match req.filters with
  | some fs => applyFilters availableFields fs dataset
  | none => dataset

/-- The coerced working values of the ungrouped non-count path:
`.map(coerce).filter(v => !isNaN(v))`. -/
def coercedValues (targetField : String) (rows : List Row) : List ℚ :=
  rows.filterMap (fun item => coerceNumeric (getField item targetField))

/-- `computeStatistic(request, dataset)` of `statsService.js`.  Thrown
exceptions (unknown operation reaching `calculateStat`, empty arrays
reaching `calculateCorrelation`) are modelled as `.error`. -/
def computeStatistic (req : OperationRequest) (dataset : List Row) :
    Except String StatResult :=
  match dataset with
  | [] => .ok { output := .msg "Dataset is empty or not loaded.", success := false }
  | firstRow :: _ =>
    let availableFields := rowKeys firstRow
    match findField availableFields req.field with
    | none =>
      .ok { output := .msg ("Field \"" ++ req.field
              ++ "\" not found. Available fields are: "
              ++ String.intercalate ", " availableFields),
            success := false }
    | some actualField =>
      let filteredData := filteredRowsOf req dataset availableFields
      if req.operation == "correlation" && optTruthy req.field2 then
        let field2 := req.field2.getD ""
        match findField availableFields field2 with
        | none =>
          .ok { output := .msg ("Second field \"" ++ field2
                  ++ "\" not found for correlation calculation."),
                success := false }
        | some actualField2 =>
          let pairs := filteredData.filterMap (fun item =>
            match jsParseFloat (getField item actualField),
                  jsParseFloat (getField item actualField2) with
            | some v1, some v2 => some (v1, v2)
            | _, _ => none)
          let values1 := pairs.map Prod.fst
          let values2 := pairs.map Prod.snd
          do
            let correlation ← calculateCorrelation values1 values2
            let m1 ← calculateStat values1 "mean"
            let mn1 ← calculateStat values1 "min"
            let mx1 ← calculateStat values1 "max"
            let m2 ← calculateStat values2 "mean"
            let mn2 ← calculateStat values2 "min"
            let mx2 ← calculateStat values2 "max"
            let f1s : FieldStats := { mean := m1, min := mn1, max := mx1 }
            let f2s : FieldStats := { mean := m2, min := mn2, max := mx2 }
            .ok { output := .corr { correlation := round3 correlation,
                                    field1Stats := f1s, field2Stats := f2s },
                  success := true, operation := some "correlation",
                  fields := some (actualField, actualField2) }
      else if optTruthy req.groupBy then
        let groupBy := req.groupBy.getD ""
        match findField availableFields groupBy with
        | none =>
          .ok { output := .msg ("GroupBy field \"" ++ groupBy ++ "\" not found"),
                success := false }
        | some actualGroupByField =>
          if req.operation == "count" then
            let groups := buildGroupsCount actualGroupByField filteredData
            -- groups with zero entries are skipped; calculateStat(rows,'count')
            -- is the number of rows in the group
            let results := (groups.filter (fun g => !g.2.isEmpty)).map
              (fun g => (g.1, (g.2.length : ℚ)))
            .ok { output := .groups results, success := true,
                  operation := some req.operation, field := some actualField,
                  groupBy := some actualGroupByField }
          else
            let groups := buildGroupsValues actualGroupByField actualField filteredData
            do
              let results ← (groups.filter (fun g => !g.2.isEmpty)).mapM
                (fun g => do
                  let v ← calculateStat g.2 req.operation
                  pure (g.1, v))
              .ok { output := .groups results, success := true,
                    operation := some req.operation, field := some actualField,
                    groupBy := some actualGroupByField }
      else
        if req.operation == "count" then
          let values := filteredData.map (fun item => getField item actualField)
          if values.length = 0 then
            .ok { output := .msg ("No valid data available for field \""
                    ++ actualField ++ "\""), success := false }
          else
            -- calculateStat(values, 'count') is values.length
            .ok { output := .num (values.length : ℚ), success := true,
                  operation := some req.operation, field := some actualField,
                  processedCount := some values.length,
                  totalCount := some filteredData.length }
        else
          let values := coercedValues actualField filteredData
          if values.length = 0 then
            .ok { output := .msg ("No valid numerical data available for field \""
                    ++ actualField ++ "\""), success := false }
          else do
            let result ← calculateStat values req.operation
            .ok { output := .num result, success := true,
                  operation := some req.operation, field := some actualField,
                  processedCount := some values.length,
                  totalCount := some filteredData.length }

/-- `values.slice(-n)`: the last `n` elements (the whole list when it is
shorter than `n`). -/
def lastN {α : Type} (n : Nat) (l : List α) : List α := l.drop (l.length - n)

/-- Conservative model of `new Date(s)` validity for strings: ISO
`YYYY-MM-DD` dates.  JavaScript's `Date.parse` accepts more formats; the
claims only rely on clearly non-date strings (for which both the model and
the source yield an invalid date). -/
def isDateString (s : String) : Bool :=
  match s.data with
  | [y1, y2, y3, y4, '-', m1, m2, '-', d1, d2] =>
    (y1.isDigit && y2.isDigit && y3.isDigit && y4.isDigit
      && m1.isDigit && m2.isDigit && d1.isDigit && d2.isDigit)
    && (decide (1 ≤ (m1.toNat - 48) * 10 + (m2.toNat - 48)
          ∧ (m1.toNat - 48) * 10 + (m2.toNat - 48) ≤ 12))
    && (decide (1 ≤ (d1.toNat - 48) * 10 + (d2.toNat - 48)
          ∧ (d1.toNat - 48) * 10 + (d2.toNat - 48) ≤ 31))
  | _ => false

/-- `!isNaN(new Date(v).getTime())` for a sampled scalar: numbers and
booleans convert to millisecond timestamps (valid); strings go through date
parsing; `null`/`undefined` are filtered out before this check runs. -/
def isValidDate : JsVal → Bool
  | .num _ => true
  | .bool _ => true
  | .str s => isDateString s
  | _ => false

/-- `inferVegaLiteType(values)` of `statsService.js`: sample from the
start, the one-third point and the end (30 each), drop null/undefined,
then classify quantitative / temporal / ordinal / nominal in that order.
The ordinal test is `distinct ≤ min(10, sampleLength * 0.2)`. -/
def inferVegaLiteType (values : List JsVal) : String :=
  let sampleSize := 30
  let spread := values.length / 3
  let sampleValues := (values.take sampleSize
      ++ (values.drop spread).take sampleSize
      ++ lastN sampleSize values).filter
      (fun v => !(v == JsVal.null) && !(v == JsVal.undefined))
  if sampleValues.isEmpty then "nominal"
  else if sampleValues.all (fun v => (jsParseFloat v).isSome) then "quantitative"
  else if sampleValues.all isValidDate then "temporal"
  else
    let uniqueValues := sampleValues.dedup
    if (uniqueValues.length : ℚ) ≤ mathMin 10 ((sampleValues.length : ℚ) * (1 / 5))
    then "ordinal"
    else "nominal"

/-- A value of a candidate response property: a scalar, or a non-null
object (e.g. a chart spec), which is always truthy. -/
inductive RespVal where
  | prim (v : JsVal)
  | object
deriving DecidableEq, Repr

/-- Truthiness of a possibly-absent response property. -/
def respTruthy : Option RespVal → Bool
  | none => false
  | some .object => true
  | some (.prim v) => jsTruthy v

/-- A candidate response as handed to `validateAndFormatResponse` (already
parsed; `none` models an absent or `undefined` property). -/
structure CandidateResponse where
  chartSpec : Option RespVal := none
  output : Option RespVal := none
  description : Option RespVal := none
deriving DecidableEq, Repr

/-- `if (!response.description) response.description = d;` -/
def setDefaultDescription (r : CandidateResponse) (d : String) : CandidateResponse :=
  if respTruthy r.description then r
  else { r with description := some (.prim (.str d)) }

/-- `validateAndFormatResponse(message)` of `server.js` (identical in
`src/unnamed/part_003`): combined when `chartSpec` and `output` are truthy,
visualization-only when `chartSpec` is truthy, statistics-only when
`output !== undefined`, otherwise a thrown error (re-thrown by the catch as
`Failed to validate response format`). -/
def validateAndFormatResponse (message : CandidateResponse) :
    Except String CandidateResponse :=
  if respTruthy message.chartSpec && respTruthy message.output then
    .ok (setDefaultDescription message "Analysis results")
  else if respTruthy message.chartSpec then
    .ok (setDefaultDescription message "Visualization results")
  else if message.output.isSome then
    .ok (setDefaultDescription message "Statistical analysis results")
  else
    .error "Failed to validate response format"

/-! ### Mutable-dataset model

To state the frame property (the engine neither changes the dataset array
nor mutates any row) the dataset is modelled with explicit references: the
dataset array is a list of row ids and a heap maps each id to the row
object's contents.  `computeStatisticH` re-traces `computeStatistic` over
this state, returning the post-call state; the only in-place mutation the
source performs anywhere — `values.sort` inside `calculateStat` — acts on
working arrays built locally from reads, which `calculateStatMut` makes
explicit by returning the final contents of its argument array. -/

/-- Address of a row object. -/
abbrev RowId := Nat

/-- The dataset array (ordered row references) together with the heap of
row objects. -/
structure DatasetState where
  rowIds : List RowId
  heap : RowId → Row

/-- `calculateStat` together with the final contents of its argument array:
`values.sort((a, b) => a - b)` sorts the array in place for `median`; no
other operation writes to it. -/
def calculateStatMut (values : List ℚ) (operation : String) :
    Except String ℚ × List ℚ :=
  (calculateStat values operation,
    if operation == "median" then sortAsc values else values)

/-- `computeStatistic` over the reference-explicit dataset state.  Every
array the source builds (`filteredData`, the group arrays, `values1`,
`values2`, `values`) is freshly allocated from reads of the heap, so each
return site pairs its result with the unchanged state. -/
def computeStatisticH (req : OperationRequest) (st : DatasetState) :
    Except String StatResult × DatasetState :=
  match st.rowIds with
  | [] => (.ok { output := .msg "Dataset is empty or not loaded.", success := false }, st)
  | firstId :: _ =>
    let availableFields := rowKeys (st.heap firstId)
    match findField availableFields req.field with
    | none =>
      (.ok { output := .msg ("Field \"" ++ req.field
               ++ "\" not found. Available fields are: "
               ++ String.intercalate ", " availableFields),
             success := false }, st)
    | some actualField =>
      let filteredIds := match req.filters with
        | some fs => st.rowIds.filter
            (fun i => fs.all (fun f => evalFilter availableFields (st.heap i) f))
        | none => st.rowIds
      if req.operation == "correlation" && optTruthy req.field2 then
        let field2 := req.field2.getD ""
        match findField availableFields field2 with
        | none =>
          (.ok { output := .msg ("Second field \"" ++ field2
                   ++ "\" not found for correlation calculation."),
                 success := false }, st)
        | some actualField2 =>
          let pairs := filteredIds.filterMap (fun i =>
            match jsParseFloat (getField (st.heap i) actualField),
                  jsParseFloat (getField (st.heap i) actualField2) with
            | some v1, some v2 => some (v1, v2)
            | _, _ => none)
          let values1 := pairs.map Prod.fst
          let values2 := pairs.map Prod.snd
          match calculateCorrelation values1 values2 with
          | .error e => (.error e, st)
          | .ok correlation =>
            match calculateStatMut values1 "mean" with
            | (.error e, _) => (.error e, st)
            | (.ok m1, values1a) =>
              match calculateStatMut values1a "min" with
              | (.error e, _) => (.error e, st)
              | (.ok mn1, values1b) =>
                match calculateStatMut values1b "max" with
                | (.error e, _) => (.error e, st)
                | (.ok mx1, _) =>
                  match calculateStatMut values2 "mean" with
                  | (.error e, _) => (.error e, st)
                  | (.ok m2, values2a) =>
                    match calculateStatMut values2a "min" with
                    | (.error e, _) => (.error e, st)
                    | (.ok mn2, values2b) =>
                      match calculateStatMut values2b "max" with
                      | (.error e, _) => (.error e, st)
                      | (.ok mx2, _) =>
                        let f1s : FieldStats := { mean := m1, min := mn1, max := mx1 }
                        let f2s : FieldStats := { mean := m2, min := mn2, max := mx2 }
                        (.ok { output := .corr { correlation := round3 correlation,
                                                 field1Stats := f1s, field2Stats := f2s },
                               success := true, operation := some "correlation",
                               fields := some (actualField, actualField2) }, st)
      else if optTruthy req.groupBy then
        let groupBy := req.groupBy.getD ""
        match findField availableFields groupBy with
        | none =>
          (.ok { output := .msg ("GroupBy field \"" ++ groupBy ++ "\" not found"),
                 success := false }, st)
        | some actualGroupByField =>
          if req.operation == "count" then
            let groups := buildGroupsCount actualGroupByField (filteredIds.map st.heap)
            let results := (groups.filter (fun g => !g.2.isEmpty)).map
              (fun g => (g.1, (g.2.length : ℚ)))
            (.ok { output := .groups results, success := true,
                   operation := some req.operation, field := some actualField,
                   groupBy := some actualGroupByField }, st)
          else
            let groups := buildGroupsValues actualGroupByField actualField
              (filteredIds.map st.heap)
            let step := fun (acc : Except String (List (String × ℚ)))
                (g : String × List ℚ) =>
              match acc with
              | .error e => .error e
              | .ok rs =>
                match calculateStatMut g.2 req.operation with
                | (.error e, _) => .error e
                | (.ok v, _) => .ok (rs ++ [(g.1, v)])
            match (groups.filter (fun g => !g.2.isEmpty)).foldl step (.ok []) with
            | .error e => (.error e, st)
            | .ok results =>
              (.ok { output := .groups results, success := true,
                     operation := some req.operation, field := some actualField,
                     groupBy := some actualGroupByField }, st)
      else
        if req.operation == "count" then
          let values := filteredIds.map (fun i => getField (st.heap i) actualField)
          if values.length = 0 then
            (.ok { output := .msg ("No valid data available for field \""
                     ++ actualField ++ "\""), success := false }, st)
          else
            (.ok { output := .num (values.length : ℚ), success := true,
                   operation := some req.operation, field := some actualField,
                   processedCount := some values.length,
                   totalCount := some filteredIds.length }, st)
        else
          let values := coercedValues actualField (filteredIds.map st.heap)
          if values.length = 0 then
            (.ok { output := .msg ("No valid numerical data available for field \""
                     ++ actualField ++ "\""), success := false }, st)
          else
            match calculateStatMut values req.operation with
            | (.error e, _) => (.error e, st)
            | (.ok result, _) =>
              (.ok { output := .num result, success := true,
                     operation := some req.operation, field := some actualField,
                     processedCount := some values.length,
                     totalCount := some filteredIds.length }, st)

/-! ### Theorems -/

/-- A conjunctive filter pass over a list ignores entries that a `keep`
predicate rejects, provided every rejected entry evaluates to `true`. -/
theorem all_eq_all_filter_of_dropped_true {α : Type} (p keep : α → Bool) (l : List α)
    (h : ∀ x ∈ l, keep x = false → p x = true) :
    l.all p = (l.filter keep).all p := by
  induction l with
  | nil => rfl
  | cons a t ih =>
    have iht := ih (fun x hx => h x (List.mem_cons_of_mem a hx))
    rw [List.all_cons, List.filter_cons]
    cases hk : keep a with
    | true => rw [if_pos rfl, List.all_cons, iht]
    | false =>
      rw [if_neg Bool.false_ne_true, h a (List.mem_cons_self a t) hk,
        Bool.true_and, iht]

/-- Claim C7: a filter whose field does not resolve against the available
columns is a no-op — the filtered row set equals the one obtained by
applying only the resolvable filters, so no row is excluded on account of
the unresolvable filter. -/
theorem applyFilters_skips_unresolvable (cols : List String) (filters : List Filter)
    (rows : List Row) :
    applyFilters cols filters rows
      = applyFilters cols (filters.filter (fun f => (findField cols f.field).isSome)) rows := by
  unfold applyFilters
  apply List.filter_congr
  intro item _
  apply all_eq_all_filter_of_dropped_true
  intro f _ hkeep
  have hnone : findField cols f.field = none := by
    cases hff : findField cols f.field
    · rfl
    · rw [hff] at hkeep; exact absurd hkeep (by simp)
  unfold evalFilter
  rw [hnone]

/-- Claim C9: a filter whose operator is not one of the six recognized
comparison operators evaluates as satisfied: the row is kept and no error
is raised. -/
theorem evalFilter_unknown_operator (cols : List String) (item : Row) (f : Filter)
    (h : f.operator ∉ (["==", "!=", ">", "<", ">=", "<="] : List String)) :
    evalFilter cols item f = true := by
  simp only [List.mem_cons, List.not_mem_nil, or_false, not_or] at h
  obtain ⟨h1, h2, h3, h4, h5, h6⟩ := h
  unfold evalFilter
  cases hf : findField cols f.field with
  | none => rfl
  | some af => split <;> simp_all

/-- Claim C9 witness: the operator `contains` is unrecognized and keeps a
concrete row. -/
theorem evalFilter_unknown_operator_witness :
    (("contains" : String) ∉ (["==", "!=", ">", "<", ">=", "<="] : List String))
    ∧ evalFilter ["a"] [("a", JsVal.num 1)] ⟨"a", "contains", JsVal.num 5⟩ = true :=
  ⟨by decide, evalFilter_unknown_operator ["a"] [("a", JsVal.num 1)]
    ⟨"a", "contains", JsVal.num 5⟩ (by decide)⟩

/-- Claim C3 (code bug, evaluated): with `chartSpec` present and `output`
present but falsy (`0`), `validateAndFormatResponse` takes the
visualization-only branch and fills "Visualization results" — not the
combined shape with "Analysis results" that the decision table (where
"has output" means present-and-not-undefined) requires. -/
theorem validateAndFormatResponse_zero_output_visualization :
    validateAndFormatResponse
      { chartSpec := some .object, output := some (.prim (.num 0)), description := none }
      = .ok { chartSpec := some .object, output := some (.prim (.num 0)),
              description := some (.prim (.str "Visualization results")) } := by decide

/-- Claim C5 (counterexample): resolution is not a round-trip on every
dataset — with columns `["ab", "A B"]`, resolving the column `"A B"`
itself returns the earlier column `"ab"`, because both normalize to
`"ab"` and `find` takes the first match. -/
theorem findField_roundtrip_cex :
    findField ["ab", "A B"] "A B" = some "ab" ∧ ("ab" : String) ≠ "A B" := by decide

/-- Claim C5 (amended): when the available columns have pairwise distinct
normalizations, resolving a column `c` itself — or any variant with the
same normalization (case / whitespace / underscore changes) — returns
exactly `c`. -/
theorem findField_roundtrip (cols : List String) (c v : String)
    (hnodup : (cols.map normalizeFieldName).Nodup)
    (hc : c ∈ cols)
    (hv : normalizeFieldName v = normalizeFieldName c) :
    findField cols v = some c := by
  induction cols with
  | nil => cases hc
  | cons a t ih =>
    rw [List.map_cons, List.nodup_cons] at hnodup
    unfold findField
    cases hb : (normalizeFieldName a == normalizeFieldName v) with
    | true =>
      simp only [List.find?, hb]
      have ha : normalizeFieldName a = normalizeFieldName c := by
        rw [← hv]; exact eq_of_beq hb
      rcases List.mem_cons.mp hc with rfl | hct
      · rfl
      · exact absurd (ha ▸ List.mem_map_of_mem normalizeFieldName hct) hnodup.1
    | false =>
      simp only [List.find?, hb]
      have hbx : normalizeFieldName a ≠ normalizeFieldName v := by
        intro he
        exact absurd hb (by simp [he])
      have hct : c ∈ t := by
        rcases List.mem_cons.mp hc with rfl | hct
        · exact absurd hv.symm hbx
        · exact hct
      exact ih hnodup.2 hct

/-- Claim C5 witness: a mis-cased, mis-spaced variant of
`Miles_per_Gallon` resolves back to the verbatim column name. -/
theorem findField_roundtrip_witness :
    ((["Miles_per_Gallon", "Origin"].map normalizeFieldName).Nodup
      ∧ "Miles_per_Gallon" ∈ ["Miles_per_Gallon", "Origin"]
      ∧ normalizeFieldName " miles per gallon " = normalizeFieldName "Miles_per_Gallon")
    ∧ findField ["Miles_per_Gallon", "Origin"] " miles per gallon "
        = some "Miles_per_Gallon" :=
  ⟨by decide, findField_roundtrip ["Miles_per_Gallon", "Origin"] "Miles_per_Gallon"
    " miles per gallon " (by decide) (by decide) (by decide)⟩

/-- The correlation guard is false when the request is not a correlation
request with a truthy second field. -/
theorem correlation_guard_false (req : OperationRequest)
    (hcorr : ¬(req.operation = "correlation" ∧ optTruthy req.field2 = true)) :
    (req.operation == "correlation" && optTruthy req.field2) = false := by
  cases h1 : (req.operation == "correlation") with
  | false => rfl
  | true =>
    cases h2 : optTruthy req.field2 with
    | false => rfl
    | true => exact absurd ⟨by simpa using h1, h2⟩ hcorr

/-- Claim C1 (counterexample): a grouped `mean` over a single row whose
target value is not numeric yields `success: true` with an *empty* group
mapping, not the `NoValidData` failure the claim requires for the grouped
path. -/
theorem computeStatistic_grouped_empty_success :
    computeStatistic ⟨"mean", "v", none, some "g", none⟩
        [[("g", .str "A"), ("v", .str "x")]]
      = .ok { output := .groups [], success := true, operation := some "mean",
              field := some "v", groupBy := some "g" } := by decide

/-- Claim C1 (amended): on the *ungrouped* path, for a non-count operation
(that does not take the correlation branch) over a non-empty dataset with
a resolvable field, zero coercible values after filtering produce the
`NoValidData` failure whose message names the resolved field.  (The
grouped path instead drops valueless groups and returns success, possibly
with an empty mapping — see the counterexample.) -/
theorem computeStatistic_ungrouped_no_valid_data
    (req : OperationRequest) (firstRow : Row) (rest : List Row) (actualField : String)
    (hop : req.operation ≠ "count")
    (hcorr : ¬(req.operation = "correlation" ∧ optTruthy req.field2 = true))
    (hgroup : optTruthy req.groupBy = false)
    (hfield : findField (rowKeys firstRow) req.field = some actualField)
    (hvals : coercedValues actualField
        (filteredRowsOf req (firstRow :: rest) (rowKeys firstRow)) = []) :
    computeStatistic req (firstRow :: rest)
      = .ok { output := .msg ("No valid numerical data available for field \""
                ++ actualField ++ "\""), success := false } := by
  have hc := correlation_guard_false req hcorr
  have hcount : (req.operation == "count") = false := by simpa using hop
  unfold computeStatistic
  simp only [hfield, hc, hgroup, hcount, Bool.false_eq_true, if_false, hvals,
    List.length_nil, ite_true]

/-- Claim C1 witness: an ungrouped `mean` over one row whose value is the
non-numeric string "x" fails with the NoValidData message. -/
theorem computeStatistic_ungrouped_no_valid_data_witness :
    (("mean" : String) ≠ "count"
      ∧ ¬(("mean" : String) = "correlation" ∧ optTruthy (none : Option String) = true)
      ∧ optTruthy (none : Option String) = false
      ∧ findField (rowKeys [("v", JsVal.str "x")]) "v" = some "v"
      ∧ coercedValues "v" (filteredRowsOf ⟨"mean", "v", none, none, none⟩
          [[("v", JsVal.str "x")]] (rowKeys [("v", JsVal.str "x")])) = [])
    ∧ computeStatistic ⟨"mean", "v", none, none, none⟩ [[("v", JsVal.str "x")]]
      = .ok { output := .msg "No valid numerical data available for field \"v\"",
              success := false } :=
  ⟨by decide, computeStatistic_ungrouped_no_valid_data
    ⟨"mean", "v", none, none, none⟩ [("v", JsVal.str "x")] [] "v"
    (by decide) (by decide) (by decide) (by decide) (by decide)⟩

/-- Claim C8 (counterexample): a successful *grouped* mean carries neither
`processedCount` nor `totalCount`, although the claim requires both on
every successful non-count, non-correlation aggregation whether grouped or
ungrouped. -/
theorem computeStatistic_grouped_lacks_counts :
    computeStatistic ⟨"mean", "v", none, some "g", none⟩
        [[("g", .str "A"), ("v", .num 2)]]
      = .ok { output := .groups [("A", 2)], success := true, operation := some "mean",
              field := some "v", groupBy := some "g", processedCount := none,
              totalCount := none } := by decide

/-- Claim C8 (amended): on the *ungrouped* path (and only there), every
successful non-count aggregation reports `processedCount` (the number of
values used after coercion) and `totalCount` (the number of filtered
rows); grouped success payloads carry neither. -/
theorem computeStatistic_ungrouped_reports_counts
    (req : OperationRequest) (firstRow : Row) (rest : List Row)
    (actualField : String) (q : ℚ)
    (hop : req.operation ≠ "count")
    (hcorr : ¬(req.operation = "correlation" ∧ optTruthy req.field2 = true))
    (hgroup : optTruthy req.groupBy = false)
    (hfield : findField (rowKeys firstRow) req.field = some actualField)
    (hne : coercedValues actualField
        (filteredRowsOf req (firstRow :: rest) (rowKeys firstRow)) ≠ [])
    (hstat : calculateStat (coercedValues actualField
        (filteredRowsOf req (firstRow :: rest) (rowKeys firstRow))) req.operation
        = .ok q) :
    computeStatistic req (firstRow :: rest)
      = .ok { output := .num q, success := true, operation := some req.operation,
              field := some actualField,
              processedCount := some (coercedValues actualField
                (filteredRowsOf req (firstRow :: rest) (rowKeys firstRow))).length,
              totalCount := some (filteredRowsOf req (firstRow :: rest)
                (rowKeys firstRow)).length } := by
  have hc := correlation_guard_false req hcorr
  have hcount : (req.operation == "count") = false := by simpa using hop
  have hlen : (coercedValues actualField
      (filteredRowsOf req (firstRow :: rest) (rowKeys firstRow))).length ≠ 0 := by
    simpa [List.length_eq_zero] using hne
  unfold computeStatistic
  simp only [hfield, hc, hgroup, hcount, Bool.false_eq_true, if_false, hlen,
    ite_false, hstat]
  rfl

/-- Claim C8 witness: an ungrouped mean over `[2]` reports
`processedCount = 1` and `totalCount = 1`. -/
theorem computeStatistic_ungrouped_reports_counts_witness :
    (("mean" : String) ≠ "count"
      ∧ ¬(("mean" : String) = "correlation" ∧ optTruthy (none : Option String) = true)
      ∧ optTruthy (none : Option String) = false
      ∧ findField (rowKeys [("v", JsVal.num 2)]) "v" = some "v"
      ∧ coercedValues "v" (filteredRowsOf ⟨"mean", "v", none, none, none⟩
          [[("v", JsVal.num 2)]] (rowKeys [("v", JsVal.num 2)])) ≠ []
      ∧ calculateStat (coercedValues "v" (filteredRowsOf ⟨"mean", "v", none, none, none⟩
          [[("v", JsVal.num 2)]] (rowKeys [("v", JsVal.num 2)]))) "mean" = .ok 2)
    ∧ computeStatistic ⟨"mean", "v", none, none, none⟩ [[("v", JsVal.num 2)]]
      = .ok { output := .num 2, success := true, operation := some "mean",
              field := some "v",
              processedCount := some (coercedValues "v"
                (filteredRowsOf ⟨"mean", "v", none, none, none⟩
                  [[("v", JsVal.num 2)]] (rowKeys [("v", JsVal.num 2)]))).length,
              totalCount := some (filteredRowsOf ⟨"mean", "v", none, none, none⟩
                [[("v", JsVal.num 2)]] (rowKeys [("v", JsVal.num 2)])).length } :=
  ⟨by decide, computeStatistic_ungrouped_reports_counts
    ⟨"mean", "v", none, none, none⟩ [("v", JsVal.num 2)] [] "v" 2
    (by decide) (by decide) (by decide) (by decide) (by decide) (by decide)⟩

/-- `calculateStat` succeeds on every value list for each of the six
recognized operations. -/
theorem calculateStat_recognized_ok (values : List ℚ) (op : String)
    (h : op ∈ (["count", "mean", "median", "sum", "min", "max"] : List String)) :
    ∃ q, calculateStat values op = .ok q := by
  simp only [List.mem_cons, List.not_mem_nil, or_false] at h
  rcases h with rfl | rfl | rfl | rfl | rfl | rfl <;> exact ⟨_, rfl⟩

/-- `List.mapM` into `Except` succeeds when the function succeeds on every
element. -/
theorem mapM_ok_of_forall {α β : Type} (f : α → Except String β) (l : List α)
    (h : ∀ a ∈ l, ∃ b, f a = .ok b) : ∃ l2, l.mapM f = .ok l2 := by
  induction l with
  | nil => exact ⟨[], rfl⟩
  | cons a t ih =>
    obtain ⟨b, hb⟩ := h a (List.mem_cons_self a t)
    obtain ⟨l2, hl⟩ := ih (fun x hx => h x (List.mem_cons_of_mem a hx))
    refine ⟨b :: l2, ?_⟩
    rw [List.mapM_cons, hb, hl]
    rfl

/-- Claim C2 (counterexample): `computeStatistic` throws (modelled as
`.error`) for an unrecognized operation name reaching `calculateStat` with
nonempty values, and for a correlation request that is left with zero
pairwise-complete rows after filtering. -/
theorem computeStatistic_throws_cex :
    computeStatistic ⟨"foo", "a", none, none, none⟩ [[("a", .num 1)]]
        = .error "Invalid operation: foo"
    ∧ computeStatistic ⟨"correlation", "a", some "b", none, none⟩
        [[("a", .str "x"), ("b", .str "y")]]
        = .error "Arrays must have the same length and not be empty" := by decide

/-- Claim C2 (amended): for each of the six recognized operation names
`computeStatistic` returns a structured result object (success flag plus
output) on every dataset and never throws; an unrecognized operation name
whose path reaches `calculateStat` with nonempty values, and a correlation
with zero pairwise-complete rows, do throw (see the counterexample). -/
theorem computeStatistic_recognized_structured (req : OperationRequest)
    (dataset : List Row)
    (hop : req.operation ∈ (["count", "mean", "median", "sum", "min", "max"] :
      List String)) :
    ∃ r, computeStatistic req dataset = .ok r := by
  have hncorr : (req.operation == "correlation") = false := by
    simp only [List.mem_cons, List.not_mem_nil, or_false] at hop
    rcases hop with h | h | h | h | h | h <;> rw [h] <;> rfl
  unfold computeStatistic
  cases dataset with
  | nil => exact ⟨_, rfl⟩
  | cons firstRow rest =>
    cases hf : findField (rowKeys firstRow) req.field with
    | none => simp only [hf]; exact ⟨_, rfl⟩
    | some actualField =>
      simp only [hf, hncorr, Bool.false_and, Bool.false_eq_true, if_false]
      cases hg : optTruthy req.groupBy with
      | true =>
        simp only [ite_true]
        cases hgf : findField (rowKeys firstRow) (req.groupBy.getD "") with
        | none => simp only [hgf]; exact ⟨_, rfl⟩
        | some actualGroupByField =>
          simp only [hgf]
          cases hcnt : (req.operation == "count") with
          | true => simp only [ite_true]; exact ⟨_, rfl⟩
          | false =>
            simp only [Bool.false_eq_true, if_false]
            obtain ⟨l2, hl⟩ := mapM_ok_of_forall
              (fun g => do
                let v ← calculateStat g.2 req.operation
                pure (g.1, v))
              ((buildGroupsValues actualGroupByField actualField
                (filteredRowsOf req (firstRow :: rest) (rowKeys firstRow))).filter
                (fun g => !g.2.isEmpty))
              (fun g _ => by
                obtain ⟨q, hq⟩ := calculateStat_recognized_ok g.2 req.operation hop
                exact ⟨(g.1, q), by simp only [hq]; rfl⟩)
            rw [hl]
            exact ⟨_, rfl⟩
      | false =>
        simp only [Bool.false_eq_true, if_false]
        cases hcnt : (req.operation == "count") with
        | true =>
          simp only [ite_true]
          by_cases hlen : (List.map (fun item => getField item actualField)
              (filteredRowsOf req (firstRow :: rest) (rowKeys firstRow))).length = 0
          · simp only [hlen, ite_true]; exact ⟨_, rfl⟩
          · simp only [hlen, ite_false]; exact ⟨_, rfl⟩
        | false =>
          simp only [Bool.false_eq_true, if_false]
          by_cases hlen : (coercedValues actualField
              (filteredRowsOf req (firstRow :: rest) (rowKeys firstRow))).length = 0
          · simp only [hlen, ite_true]; exact ⟨_, rfl⟩
          · simp only [hlen, ite_false]
            obtain ⟨q, hq⟩ := calculateStat_recognized_ok
              (coercedValues actualField
                (filteredRowsOf req (firstRow :: rest) (rowKeys firstRow)))
              req.operation hop
            rw [hq]
            exact ⟨_, rfl⟩

/-- Claim C2 witness: a recognized operation on a concrete dataset returns
a structured result. -/
theorem computeStatistic_recognized_structured_witness :
    (("mean" : String) ∈ (["count", "mean", "median", "sum", "min", "max"] :
      List String))
    ∧ ∃ r, computeStatistic ⟨"mean", "v", none, none, none⟩ [[("v", JsVal.num 1)]]
        = .ok r :=
  ⟨by decide, computeStatistic_recognized_structured
    ⟨"mean", "v", none, none, none⟩ [[("v", JsVal.num 1)]] (by decide)⟩

/-- Claim C6: `computeStatistic` leaves the source dataset unchanged — the
array of row references is not added to, removed from, or reordered, and
no row object is mutated; the in-place sort for `median` (visible in
`calculateStatMut`) only ever runs on working arrays built freshly from
heap reads, never on the dataset or its rows. -/
theorem computeStatisticH_preserves_dataset (req : OperationRequest)
    (st : DatasetState) : (computeStatisticH req st).2 = st := by
  unfold computeStatisticH
  rcases hrows : st.rowIds with _ | ⟨a, l⟩
  · rfl
  · simp only []
    repeat' split
    all_goals rfl

/-- Filtering a constant list with a predicate that holds keeps it. -/
theorem filter_replicate_of_pos {α : Type} (p : α → Bool) (n : Nat) (a : α)
    (h : p a = true) : (List.replicate n a).filter p = List.replicate n a := by
  induction n with
  | zero => rfl
  | succ k ih =>
    rw [List.replicate_succ, List.filter_cons, h, if_pos rfl, ih]

/-- `isEmpty` of a nonempty constant list. -/
theorem isEmpty_replicate_of_ne {α : Type} (n : Nat) (a : α) (h : n ≠ 0) :
    (List.replicate n a).isEmpty = false := by
  cases n with
  | zero => exact absurd rfl h
  | succ k => rfl

/-- `all` over a nonempty constant list fails when the predicate fails. -/
theorem all_replicate_of_neg {α : Type} (p : α → Bool) (n : Nat) (a : α)
    (hn : n ≠ 0) (h : p a = false) : (List.replicate n a).all p = false := by
  cases n with
  | zero => exact absurd rfl hn
  | succ k => rw [List.replicate_succ, List.all_cons, h, Bool.false_and]

/-- Deduplicating a nonempty constant list leaves one element. -/
theorem dedup_replicate {α : Type} [DecidableEq α] (n : Nat) (a : α) (hn : n ≠ 0) :
    (List.replicate n a).dedup = [a] := by
  induction n with
  | zero => exact absurd rfl hn
  | succ k ih =>
    cases k with
    | zero => simp
    | succ m =>
      rw [List.replicate_succ,
        List.dedup_cons_of_mem (by simp [List.mem_replicate]), ih (by simp)]

/-- Claim C4: a column whose values are identical non-numeric, non-date
strings is classified ordinal whenever the column has more than one
element (the single-element column is nominal: the threshold
`min(10, sampleLength * 0.2)` is below 1 for its 3-element sample), and an
empty column is classified nominal. -/
theorem inferVegaLiteType_identical_strings (s : String) (n : Nat)
    (hnum : parseFloatStr s = none) (hdate : isDateString s = false) (h2 : 2 ≤ n) :
    inferVegaLiteType (List.replicate n (JsVal.str s)) = "ordinal"
    ∧ inferVegaLiteType ([] : List JsVal) = "nominal" := by
  refine ⟨?_, rfl⟩
  simp only [inferVegaLiteType, lastN, List.length_replicate]
  rw [List.take_replicate, List.drop_replicate, List.take_replicate,
    List.drop_replicate, ← List.replicate_add, ← List.replicate_add]
  set K := min 30 n + min 30 (n - n / 3) + (n - (n - 30)) with hK
  have hKne : K ≠ 0 := by omega
  have hK5 : 5 ≤ K := by omega
  rw [filter_replicate_of_pos _ _ _ rfl]
  rw [isEmpty_replicate_of_ne _ _ hKne]
  rw [all_replicate_of_neg _ _ _ hKne (by simp [jsParseFloat, hnum])]
  rw [all_replicate_of_neg _ _ _ hKne (by simp [isValidDate, hdate])]
  rw [dedup_replicate _ _ hKne]
  have hcond : ((([(JsVal.str s)]).length : ℚ))
      ≤ mathMin 10 (((List.replicate K (JsVal.str s)).length : ℚ) * (1 / 5)) := by
    rw [List.length_replicate, List.length_singleton]
    have h5q : (5 : ℚ) ≤ (K : ℚ) := by exact_mod_cast hK5
    unfold mathMin
    split
    · norm_num
    · push_cast
      linarith
  simp only [hcond, ite_true, Bool.false_eq_true, if_false]

/-- Claim C4 witness: the two-element column `["x", "x"]` is ordinal and
the empty column is nominal; `"x"` is neither numeric nor a date. -/
theorem inferVegaLiteType_identical_strings_witness :
    (parseFloatStr "x" = none ∧ isDateString "x" = false ∧ 2 ≤ 2)
    ∧ inferVegaLiteType (List.replicate 2 (JsVal.str "x")) = "ordinal"
    ∧ inferVegaLiteType ([] : List JsVal) = "nominal" :=
  ⟨by decide, inferVegaLiteType_identical_strings "x" 2 (by decide) (by decide)
    (by decide)⟩

/-- `lookup` after `pushGroup`: the entry for `s` gains `v` exactly when
`s` is the pushed key. -/
theorem lookup_pushGroup {α : Type} (gs : List (String × List α)) (k s : String)
    (v : α) :
    (pushGroup gs k v).lookup s
      = (gs.lookup s).map (fun l => if s = k then l ++ [v] else l) := by
  induction gs with
  | nil => rfl
  | cons g t ih =>
    obtain ⟨k0, l0⟩ := g
    simp only [pushGroup, List.map_cons] at ih ⊢
    by_cases h0 : k0 = k
    · subst h0
      simp only [beq_self_eq_true, if_true]
      rw [List.lookup_cons, List.lookup_cons]
      cases hb : (s == k0) with
      | true => simp [eq_of_beq hb]
      | false => exact ih
    · have hb0 : (k0 == k) = false := beq_eq_false_iff_ne.mpr h0
      simp only [hb0, Bool.false_eq_true, if_false]
      rw [List.lookup_cons, List.lookup_cons]
      cases hb : (s == k0) with
      | true => simp [eq_of_beq hb, h0]
      | false => exact ih

/-- `lookup` after `ensureGroup`: an existing entry is unchanged; a fresh
empty entry appears for the ensured key. -/
theorem lookup_ensureGroup {α : Type} (gs : List (String × List α)) (k s : String) :
    (ensureGroup gs k).lookup s
      = if (gs.lookup s).isSome then gs.lookup s
        else if s = k then some [] else none := by
  unfold ensureGroup
  by_cases hk : (gs.find? (fun g => g.1 == k)).isSome = true
  · rw [if_pos hk]
    by_cases hs : (gs.lookup s).isSome = true
    · rw [if_pos hs]
    · have hnone : gs.lookup s = none := Option.not_isSome_iff_eq_none.mp hs
      rw [hnone]
      by_cases hsk : s = k
      · subst hsk
        obtain ⟨p, hp, hpk⟩ := List.find?_isSome.mp hk
        have : (gs.lookup s).isSome := List.lookup_isSome_iff.mpr
          ⟨p, hp, by simpa using (eq_of_beq hpk).symm⟩
        rw [hnone] at this
        exact absurd this (by simp)
      · simp [hsk]
  · rw [if_neg hk, List.lookup_append]
    by_cases hs : (gs.lookup s).isSome = true
    · obtain ⟨l, hl⟩ := Option.isSome_iff_exists.mp hs
      rw [hl]
      simp
    · have hnone := Option.not_isSome_iff_eq_none.mp hs
      rw [hnone]
      by_cases hsk : s = k
      · subst hsk
        simp [List.lookup_cons]
      · have hb : (s == k) = false := beq_eq_false_iff_ne.mpr hsk
        simp [List.lookup_cons, hsk, hb]

/-- One grouped-accumulation step (`ensure` then `push`) seen through
`lookup`. -/
theorem lookup_groupStep {α : Type} (gs : List (String × List α)) (k s : String)
    (v : α) :
    ((pushGroup (ensureGroup gs k) k v).lookup s)
      = if s = k then some ((gs.lookup s).getD [] ++ [v]) else gs.lookup s := by
  rw [lookup_pushGroup, lookup_ensureGroup]
  by_cases hsk : s = k
  · subst hsk
    cases hls : gs.lookup s with
    | none => simp
    | some l => simp
  · cases hls : gs.lookup s with
    | none => simp [hsk]
    | some l => simp [hsk]

/-- The grouped accumulation fold, characterized through `lookup`: the
entry for `s` collects exactly the rows whose key stringifies to `s`, in
order, and exists exactly when such a row exists (or the entry was already
present). -/
theorem lookup_foldl_groups {α : Type} (keyOf : α → String) (rows : List α)
    (gs : List (String × List α)) (s : String) :
    ((rows.foldl (fun gs item =>
        pushGroup (ensureGroup gs (keyOf item)) (keyOf item) item) gs).lookup s)
      = match gs.lookup s with
        | some l => some (l ++ rows.filter (fun r => keyOf r == s))
        | none => if rows.any (fun r => keyOf r == s)
                  then some (rows.filter (fun r => keyOf r == s)) else none := by
  induction rows generalizing gs with
  | nil =>
    rw [List.foldl_nil]
    cases h : gs.lookup s with
    | none => simp only [List.any_nil, Bool.false_eq_true, if_false]
    | some l => simp only [List.filter_nil, List.append_nil]
  | cons r t ih =>
    rw [List.foldl_cons, ih, lookup_groupStep]
    by_cases hks : keyOf r = s
    · rw [if_pos hks.symm]
      cases h : gs.lookup s with
      | none => simp [h, hks, List.filter_cons, List.any_cons]
      | some l => simp [h, hks, List.filter_cons]
    · rw [if_neg (Ne.symm hks)]
      cases h : gs.lookup s with
      | none => simp [h, hks, List.filter_cons, List.any_cons]
      | some l => simp [h, hks, List.filter_cons]

/-- Every group produced by the grouped accumulation fold is nonempty. -/
theorem groups_foldl_ne_nil {α : Type} (keyOf : α → String) (rows : List α)
    (gs : List (String × List α)) (hgs : ∀ g ∈ gs, g.2 ≠ []) :
    ∀ g ∈ rows.foldl (fun gs item =>
        pushGroup (ensureGroup gs (keyOf item)) (keyOf item) item) gs, g.2 ≠ [] := by
  induction rows generalizing gs with
  | nil => exact hgs
  | cons r t ih =>
    rw [List.foldl_cons]
    apply ih
    intro g hg
    unfold pushGroup at hg
    obtain ⟨g0, hg0, hfg⟩ := List.mem_map.mp hg
    have hg0ne : g0.2 ≠ [] ∨ g0.1 = keyOf r := by
      unfold ensureGroup at hg0
      split at hg0
      · exact Or.inl (hgs g0 hg0)
      · rcases List.mem_append.mp hg0 with h | h
        · exact Or.inl (hgs g0 h)
        · simp only [List.mem_singleton] at h
          exact Or.inr (by rw [h])
    subst hfg
    by_cases h0 : g0.1 = keyOf r
    · simp [h0]
    · simp only [h0, beq_iff_eq, if_neg h0]
      rcases hg0ne with h | h
      · exact h
      · exact absurd h h0

/-- `lookup` through the key-preserving pass that replaces each group's
row list by its length (`results[groupValue] = calculateStat(values,
'count')`). -/
theorem lookup_map_pairs (l : List (String × List Row)) (s : String) :
    ((l.map (fun g => (g.1, (g.2.length : ℚ)))).lookup s)
      = (l.lookup s).map (fun rows => ((rows.length : ℚ))) := by
  induction l with
  | nil => rfl
  | cons g t ih =>
    obtain ⟨k0, v0⟩ := g
    rw [List.map_cons, List.lookup_cons, List.lookup_cons]
    cases h : (s == k0) <;> simp [ih]

/-- Claim C10: for a grouped count with resolvable target and group-by
fields over a non-empty dataset, every stringified group value occurring
among the filtered rows appears as a key of the success mapping, with
value the number of filtered rows in that group — rows count regardless of
the target field's value, and no group is dropped. -/
theorem computeStatistic_grouped_count
    (req : OperationRequest) (firstRow : Row) (rest : List Row)
    (actualField actualGroupByField gb : String)
    (hop : req.operation = "count")
    (hgb : req.groupBy = some gb) (hgbne : gb ≠ "")
    (hfield : findField (rowKeys firstRow) req.field = some actualField)
    (hgf : findField (rowKeys firstRow) gb = some actualGroupByField) :
    ∃ m, computeStatistic req (firstRow :: rest)
        = .ok { output := .groups m, success := true, operation := some "count",
                field := some actualField, groupBy := some actualGroupByField }
      ∧ ∀ s : String,
          (∃ item ∈ filteredRowsOf req (firstRow :: rest) (rowKeys firstRow),
              jsToString (getField item actualGroupByField) = s) →
          m.lookup s = some
            ((((filteredRowsOf req (firstRow :: rest) (rowKeys firstRow)).filter
                (fun item => jsToString (getField item actualGroupByField) == s)).length
              : ℚ)) := by
  have hnonempty := groups_foldl_ne_nil
    (fun item => jsToString (getField item actualGroupByField))
    (filteredRowsOf req (firstRow :: rest) (rowKeys firstRow)) []
    (by intro g h; cases h)
  have hfe : ((buildGroupsCount actualGroupByField
        (filteredRowsOf req (firstRow :: rest) (rowKeys firstRow))).filter
        (fun g => !g.2.isEmpty))
      = buildGroupsCount actualGroupByField
        (filteredRowsOf req (firstRow :: rest) (rowKeys firstRow)) := by
    apply List.filter_eq_self.mpr
    intro g hg
    have : g.2 ≠ [] := by
      apply hnonempty
      simpa only [buildGroupsCount] using hg
    simpa [List.isEmpty_iff]
  refine ⟨((buildGroupsCount actualGroupByField
      (filteredRowsOf req (firstRow :: rest) (rowKeys firstRow))).filter
      (fun g => !g.2.isEmpty)).map (fun g => (g.1, (g.2.length : ℚ))), ?_, ?_⟩
  · unfold computeStatistic
    have hgt : optTruthy (some gb) = true := by simp [optTruthy, hgbne]
    simp only [hfield, hop, hgb, Option.getD_some, hgf, hgt,
      show (("count" : String) == "correlation") = false from rfl, Bool.false_and,
      Bool.false_eq_true, if_false, ite_true,
      show (("count" : String) == "count") = true from rfl]
  · intro s hocc
    obtain ⟨item, hitem, hkey⟩ := hocc
    rw [hfe, lookup_map_pairs]
    have hany : (filteredRowsOf req (firstRow :: rest) (rowKeys firstRow)).any
        (fun r => jsToString (getField r actualGroupByField) == s) = true :=
      List.any_eq_true.mpr ⟨item, hitem, by simp [hkey]⟩
    simp only [buildGroupsCount]
    rw [lookup_foldl_groups]
    simp only [List.lookup_nil, hany, ite_true]
    rfl

/-- Claim C10 witness: a grouped count over three rows (with a null and a
non-numeric target value) keeps every group and counts whole rows. -/
theorem computeStatistic_grouped_count_witness :
    ((("count" : String) = "count"
      ∧ (some "g" : Option String) = some "g"
      ∧ ("g" : String) ≠ ""
      ∧ findField (rowKeys [("g", JsVal.str "A"), ("v", JsVal.null)]) "v" = some "v"
      ∧ findField (rowKeys [("g", JsVal.str "A"), ("v", JsVal.null)]) "g" = some "g")
    ∧ ∃ m, computeStatistic ⟨"count", "v", none, some "g", none⟩
          ([("g", JsVal.str "A"), ("v", JsVal.null)] ::
            [[("g", JsVal.str "B"), ("v", JsVal.num 1)],
             [("g", JsVal.str "A"), ("v", JsVal.str "zzz")]])
        = .ok { output := .groups m, success := true, operation := some "count",
                field := some "v", groupBy := some "g" }
      ∧ ∀ s : String,
          (∃ item ∈ filteredRowsOf ⟨"count", "v", none, some "g", none⟩
              ([("g", JsVal.str "A"), ("v", JsVal.null)] ::
                [[("g", JsVal.str "B"), ("v", JsVal.num 1)],
                 [("g", JsVal.str "A"), ("v", JsVal.str "zzz")]])
              (rowKeys [("g", JsVal.str "A"), ("v", JsVal.null)]),
              jsToString (getField item "g") = s) →
          m.lookup s = some
            ((((filteredRowsOf ⟨"count", "v", none, some "g", none⟩
                ([("g", JsVal.str "A"), ("v", JsVal.null)] ::
                  [[("g", JsVal.str "B"), ("v", JsVal.num 1)],
                   [("g", JsVal.str "A"), ("v", JsVal.str "zzz")]])
                (rowKeys [("g", JsVal.str "A"), ("v", JsVal.null)])).filter
                (fun item => jsToString (getField item "g") == s)).length : ℚ))) :=
  ⟨by decide, computeStatistic_grouped_count ⟨"count", "v", none, some "g", none⟩
    [("g", JsVal.str "A"), ("v", JsVal.null)]
    [[("g", JsVal.str "B"), ("v", JsVal.num 1)],
     [("g", JsVal.str "A"), ("v", JsVal.str "zzz")]]
    "v" "g" "g" rfl rfl (by decide) (by decide) (by decide)⟩

end StatsSpec
